import Mathlib

/- Batteries marks the `Rat` arithmetic kernels `@[irreducible]`, which stops
`decide`/`rfl` from evaluating concrete rational arithmetic.  Restoring the
default reducibility is sound (it changes no definition, only unfolding). -/
set_option allowUnsafeReducibility true
set_option maxRecDepth 8000

attribute [local semireducible] Rat.mul Rat.inv Rat.add Rat.sub Rat.ofScientific

/-!
Verification of the Mercer Island geotechnical feasibility pipeline
(`geo_processing.py`, `gemini_analysis.py`, `app.py`, `models.py`).

Shallow embedding conventions:
* Machine floats are modelled by `ℚ` (all arithmetic in the slope pipeline is
  exact at the inputs the claims use).
* Calls into external geometry libraries (shapely / geopandas) are modelled by
  abstract parameters: the geometry of a clipped feature is a value of an
  arbitrary type `γ`, planar centroid distance is a parameter
  `dist : γ → γ → ℚ`, the composition `np.degrees (np.arctan ·)` is a
  parameter `atanDeg : ℚ → ℚ`, and polygon predicates are Boolean parameters.
* Fallible steps (file loads, the pandas `sort_values` call, the external
  model call) are modelled with `Except String`; a Python `try/except` block
  becomes a `match` on the `Except` value.
-/

/-- `models.py` `SlopeData`: average and maximum slope in degrees. -/
structure SlopeData where
  average_slope : ℚ
  max_slope : ℚ
deriving DecidableEq, Repr

/-- `models.py` `Coordinates`: geocoded latitude/longitude in degrees. -/
structure Coordinates where
  latitude : ℚ
  longitude : ℚ
deriving DecidableEq, Repr

/-- `models.py` `Property`: parcel id plus (abstract) parcel geometry. -/
structure Property (γ : Type) where
  parcel_id : String
  geometry : γ
deriving DecidableEq, Repr

/-- `models.py` `EnvironmentalCheck`: one Boolean per hazard layer. -/
structure EnvironmentalCheck where
  erosion : Bool
  potential_slide : Bool
  seismic : Bool
  steep_slope : Bool
  watercourse : Bool
deriving DecidableEq, Repr

/-- One row of the clipped-intersections GeoDataFrame in `calculate_slope`
(`geo_processing.py` lines 112-114): the value of the `Elevation` attribute
and the (abstract) clipped geometry.  When the frame's `Elevation` column is
absent the stored `elevation` fields are phantom values that no reachable
code path reads (the `sort_values` call raises first; see `calcSlopeBody`). -/
structure ContourRow (γ : Type) where
  elevation : ℚ
  geom : γ
deriving DecidableEq, Repr

/-- The clipped, non-empty contour intersections for one parcel, together
with whether the source layer carries the `Elevation` column
(`geo_processing.py` lines 112-115). -/
structure ContourFrame (γ : Type) where
  hasElevationColumn : Bool
  rows : List (ContourRow γ)
deriving DecidableEq, Repr

/-- Insert a row after every already-placed row of smaller-or-equal
elevation (ascending insertion step). -/
def insertByElev {γ : Type} (r : ContourRow γ) : List (ContourRow γ) → List (ContourRow γ)
  | [] => [r]
  | x :: xs => if x.elevation ≤ r.elevation then x :: insertByElev r xs else r :: x :: xs

/-- Ascending sort by the `Elevation` attribute, modelling
`intersections.sort_values(by="Elevation")` (`geo_processing.py` line 114). -/
def sortByElevation {γ : Type} (rows : List (ContourRow γ)) : List (ContourRow γ) :=
  rows.foldl (fun acc r => insertByElev r acc) []

/-- The loop of `geo_processing.py` lines 129-151 over consecutive pairs of
the elevation-sorted intersections: a pair whose centroid distance `d`
satisfies `0.5 < d ≤ 1000` contributes
`np.degrees (np.arctan (|Δelevation| / d))`; every other pair is dropped. -/
def pairSlopes {γ : Type} (atanDeg : ℚ → ℚ) (dist : γ → γ → ℚ)
    (sorted : List (ContourRow γ)) : List ℚ :=
  (sorted.zip sorted.tail).filterMap (fun p =>
    if (1/2 : ℚ) < dist p.1.geom p.2.geom ∧ dist p.1.geom p.2.geom ≤ 1000
    then some (atanDeg (|p.2.elevation - p.1.elevation| / dist p.1.geom p.2.geom))
    else none)

/-- `np.max` over the slope list (only ever applied to a non-empty list in
`calculate_slope`; the `[]` branch is unreachable there). -/
def listMax : List ℚ → ℚ
  | [] => 0
  | x :: xs => xs.foldl max x

/-- `np.mean` over the slope list: sum divided by length. -/
def listMean (l : List ℚ) : ℚ := l.sum / (l.length : ℚ)

/-- The body of the `try:` block of `calculate_slope`
(`geo_processing.py` lines 104-158), after the load of the contour layer.
Faithful control flow:
* line 114 `sort_values(by="Elevation")` raises `KeyError` when the frame
  lacks the `Elevation` column — this happens *before* the
  `"Elevation" not in intersections.columns` check of lines 122-124, which
  is therefore dead code on the missing-column path;
* line 117: fewer than two intersections → `SlopeData(0.0, 0.0)`;
* lines 129-151: the pair loop (`pairSlopes`);
* line 153: no surviving pair → `SlopeData(0.0, 0.0)`;
* line 158: otherwise `SlopeData(np.mean(slopes), np.max(slopes))`. -/
def calcSlopeBody {γ : Type} (atanDeg : ℚ → ℚ) (dist : γ → γ → ℚ)
    (frame : ContourFrame γ) : Except String SlopeData :=
  if frame.hasElevationColumn = false then Except.error "KeyError: Elevation"
  else
    let inter := sortByElevation frame.rows
    if inter.length < 2 then Except.ok ⟨0, 0⟩
    else
      let slopes := pairSlopes atanDeg dist inter
      if slopes = [] then Except.ok ⟨0, 0⟩
      else Except.ok ⟨listMean slopes, listMax slopes⟩

/-- `geo_processing.py` `calculate_slope` (lines 92-161).  `load` is the
outcome of `load_geojson(CONTOUR_FILE)` (which re-raises on failure, line 67).
The blanket `except Exception` handler of lines 159-161 converts *any*
raised error — load failure included — into `SlopeData(0.0, 0.0)`.  Every
Python return path yields a `SlopeData`, never `None`, which the embedding
reflects in its (non-optional) return type. -/
def calculate_slope {γ : Type} (atanDeg : ℚ → ℚ) (dist : γ → γ → ℚ)
    (load : Except String (ContourFrame γ)) : SlopeData :=
  match load.bind (calcSlopeBody atanDeg dist) with
  | Except.ok r => r
  | Except.error _ => ⟨0, 0⟩

/-- Pydantic models define no `__bool__`/`__len__`, so a `SlopeData` instance
is always truthy in Python. -/
def slopeDataTruthy (_ : SlopeData) : Bool := true

/-- The step-3 guard of `app.py` `perform_analysis` (lines 36-39):
`if not slope_data:` shows this error and aborts. -/
def slopeStepError (r : SlopeData) : Option String :=
  if slopeDataTruthy r then none else some "Failed to calculate slope data."

/-- `geo_processing.py` `extract_property` (lines 69-90).  `load` is the
outcome of `load_geojson(PROPERTY_FILE)`; `contains` models
`row.geometry.contains(point)`; each row carries its optional `PARCEL_ID`
attribute.  The test point is built as `Point(longitude, latitude)`
(line 81), i.e. (x, y) = (longitude, latitude).  The first containing row
wins; no containing row gives `none`; a raised error (e.g. load failure)
is absorbed to `none` by the handler of lines 88-90. -/
def extract_property {γ : Type} (contains : γ → ℚ × ℚ → Bool)
    (load : Except String (List (Option String × γ))) (c : Coordinates) :
    Option (Property γ) :=
  match load with
  | Except.error _ => none
  | Except.ok rows =>
    let point := (c.longitude, c.latitude)
    match rows.find? (fun r => contains r.2 point) with
    | some r => some ⟨r.1.getD "unknown", r.2⟩
    | none => none

/-- `geo_processing.py` `check_environmental_hazards` (lines 163-189).
The five `Except` arguments are the outcomes of `load_geojson` on the five
`HAZARD_FILES` entries in dict-insertion order; `intersects` models
`feature.intersects(property_geom)`.  Any raised load error is absorbed to
`None` by the handler of lines 187-189, so no partial result exists. -/
def check_environmental_hazards {γ : Type} (intersects : γ → Bool)
    (erosionL slideL seismicL steepL waterL : Except String (List γ)) :
    Option EnvironmentalCheck :=
  match erosionL with
  | Except.error _ => none
  | Except.ok e =>
    match slideL with
    | Except.error _ => none
    | Except.ok p =>
      match seismicL with
      | Except.error _ => none
      | Except.ok s =>
        match steepL with
        | Except.error _ => none
        | Except.ok t =>
          match waterL with
          | Except.error _ => none
          | Except.ok w =>
            some ⟨e.any intersects, p.any intersects, s.any intersects,
                  t.any intersects, w.any intersects⟩

/-- Concrete data for the spec's slope example: contour intersections at
elevations 10, 20, 30 (listed out of order to exercise the sort), geometries
named 0, 1, 2, centroid distances 100 m between the 10/20 pair and 50 m
between the 20/30 pair. -/
def c1Frame : ContourFrame ℕ := ⟨true, [⟨20, 1⟩, ⟨10, 0⟩, ⟨30, 2⟩]⟩

/-- Centroid distances for `c1Frame`. -/
def c1Dist : ℕ → ℕ → ℚ :=
  fun a b => if a = 0 ∧ b = 1 then 100 else if a = 1 ∧ b = 2 then 50 else 0

/-- Two clipped intersections whose source layer lacks the `Elevation`
column (the `elevation` fields are phantom; no reachable path reads them). -/
def c4Frame : ContourFrame ℕ := ⟨false, [⟨0, 0⟩, ⟨0, 1⟩]⟩

/-- Centroid distance of 10 m everywhere: the plausibility filter would pass. -/
def c4Dist : ℕ → ℕ → ℚ := fun _ _ => 10

/-- Parcel rows for the locator example: feature 7 is the containing one and
the first containing row carries no `PARCEL_ID` attribute. -/
def c7Rows : List (Option String × ℕ) := [(some "A", 5), (none, 7), (some "B", 7)]

/-- Containment test for the locator example: only geometry 7 contains the
point, and only at (x, y) = (1, 2). -/
def c7Contains : ℕ → ℚ × ℚ → Bool := fun g pt => decide (g = 7 ∧ pt = (1, 2))

/-- Hazard-feature intersection test for the seismic-only example. -/
def c6Intersects : ℕ → Bool := fun g => g = 7

/- ### Helper lemmas -/

theorem length_insertByElev {γ : Type} (r : ContourRow γ) (l : List (ContourRow γ)) :
    (insertByElev r l).length = l.length + 1 := by
  induction l with
  | nil => rfl
  | cons x xs ih => by_cases h : x.elevation ≤ r.elevation <;> simp [insertByElev, h, ih]

theorem length_sortByElevation {γ : Type} (rows : List (ContourRow γ)) :
    (sortByElevation rows).length = rows.length := by
  suffices h : ∀ acc : List (ContourRow γ),
      (rows.foldl (fun acc r => insertByElev r acc) acc).length = rows.length + acc.length by
    simpa using h []
  induction rows with
  | nil => intro acc; simp
  | cons r rows ih =>
    intro acc
    simp only [List.foldl_cons, ih (insertByElev r acc), length_insertByElev,
      List.length_cons]
    omega

theorem le_foldl_max (t : List ℚ) : ∀ acc : ℚ, acc ≤ t.foldl max acc := by
  induction t with
  | nil => intro acc; exact le_refl acc
  | cons x xs ih =>
    intro acc
    exact le_trans (le_max_left acc x) (ih (max acc x))

theorem mem_le_foldl_max (t : List ℚ) (x : ℚ) (hx : x ∈ t) :
    ∀ acc : ℚ, x ≤ t.foldl max acc := by
  induction t with
  | nil => cases hx
  | cons y ys ih =>
    intro acc
    rcases List.mem_cons.mp hx with h | h
    · subst h
      exact le_trans (le_max_right acc x) (le_foldl_max ys (max acc x))
    · exact ih h (max acc y)

theorem le_listMax (l : List ℚ) (x : ℚ) (hx : x ∈ l) : x ≤ listMax l := by
  cases l with
  | nil => cases hx
  | cons h t =>
    rcases List.mem_cons.mp hx with he | he
    · subst he; exact le_foldl_max t x
    · exact mem_le_foldl_max t x he h

theorem listMean_nonneg (l : List ℚ) (h : ∀ x ∈ l, 0 ≤ x) : 0 ≤ listMean l :=
  div_nonneg (List.sum_nonneg h) (Nat.cast_nonneg l.length)

theorem listMean_le_listMax (l : List ℚ) (hne : l ≠ []) : listMean l ≤ listMax l := by
  have hlen : 0 < (l.length : ℚ) := by
    have := List.length_pos.mpr hne
    exact_mod_cast this
  rw [listMean, div_le_iff₀ hlen]
  have hsum : l.sum ≤ l.length • listMax l :=
    List.sum_le_card_nsmul l (listMax l) (fun x hx => le_listMax l x hx)
  calc l.sum ≤ l.length • listMax l := hsum
    _ = (l.length : ℚ) * listMax l := by rw [nsmul_eq_mul]
    _ = listMax l * (l.length : ℚ) := by ring

theorem mem_pairSlopes {γ : Type} (atanDeg : ℚ → ℚ) (dist : γ → γ → ℚ)
    (sorted : List (ContourRow γ)) (x : ℚ) :
    x ∈ pairSlopes atanDeg dist sorted ↔
      ∃ p ∈ sorted.zip sorted.tail,
        ((1/2 : ℚ) < dist p.1.geom p.2.geom ∧ dist p.1.geom p.2.geom ≤ 1000) ∧
          x = atanDeg (|p.2.elevation - p.1.elevation| / dist p.1.geom p.2.geom) := by
  simp only [pairSlopes, List.mem_filterMap]
  constructor
  · rintro ⟨p, hp, hsome⟩
    by_cases hc : (1/2 : ℚ) < dist p.1.geom p.2.geom ∧ dist p.1.geom p.2.geom ≤ 1000
    · rw [if_pos hc] at hsome
      exact ⟨p, hp, hc, (Option.some.injEq _ _ ▸ hsome).symm⟩
    · rw [if_neg hc] at hsome
      cases hsome
  · rintro ⟨p, hp, hc, hx⟩
    exact ⟨p, hp, by rw [if_pos hc, hx]⟩

theorem calculate_slope_main {γ : Type} (atanDeg : ℚ → ℚ) (dist : γ → γ → ℚ)
    (frame : ContourFrame γ) (hcol : frame.hasElevationColumn = true)
    (hlen : ¬ (sortByElevation frame.rows).length < 2)
    (hne : pairSlopes atanDeg dist (sortByElevation frame.rows) ≠ []) :
    calculate_slope atanDeg dist (Except.ok frame)
      = ⟨listMean (pairSlopes atanDeg dist (sortByElevation frame.rows)),
         listMax (pairSlopes atanDeg dist (sortByElevation frame.rows))⟩ := by
  simp [calculate_slope, Except.bind, calcSlopeBody, hcol, hlen, hne]

theorem calculate_slope_sentinel_short {γ : Type} (atanDeg : ℚ → ℚ) (dist : γ → γ → ℚ)
    (frame : ContourFrame γ) (hlen : frame.rows.length < 2) :
    calculate_slope atanDeg dist (Except.ok frame) = ⟨0, 0⟩ := by
  cases hcol : frame.hasElevationColumn
  · simp [calculate_slope, Except.bind, calcSlopeBody, hcol]
  · have hlt : (sortByElevation frame.rows).length < 2 := by
      rw [length_sortByElevation]; exact hlen
    simp [calculate_slope, Except.bind, calcSlopeBody, hcol, hlt]

theorem calculate_slope_sentinel_filtered {γ : Type} (atanDeg : ℚ → ℚ) (dist : γ → γ → ℚ)
    (frame : ContourFrame γ)
    (hslopes : pairSlopes atanDeg dist (sortByElevation frame.rows) = []) :
    calculate_slope atanDeg dist (Except.ok frame) = ⟨0, 0⟩ := by
  cases hcol : frame.hasElevationColumn
  · simp [calculate_slope, Except.bind, calcSlopeBody, hcol]
  · by_cases hlen : (sortByElevation frame.rows).length < 2
    · simp [calculate_slope, Except.bind, calcSlopeBody, hcol, hlen]
    · simp [calculate_slope, Except.bind, calcSlopeBody, hcol, hlen, hslopes]

theorem find?_first {α : Type} (p : α → Bool) :
    ∀ (l : List α) (a : α), l.find? p = some a →
      ∃ pre post, l = pre ++ a :: post ∧ (∀ x ∈ pre, p x = false) ∧ p a = true := by
  intro l
  induction l with
  | nil => intro a h; cases h
  | cons y ys ih =>
    intro a h
    by_cases hy : p y = true
    · rw [List.find?_cons_of_pos _ hy] at h
      cases h
      exact ⟨[], ys, rfl, (by intro x hx; cases hx), hy⟩
    · have hy' : p y = false := by simpa using hy
      rw [List.find?_cons_of_neg _ (by simp [hy'])] at h
      obtain ⟨pre, post, hl, hpre, ha⟩ := ih a h
      refine ⟨y :: pre, post, by simp [hl], ?_, ha⟩
      intro x hx
      rcases List.mem_cons.mp hx with hx | hx
      · subst hx; exact hy'
      · exact hpre x hx

theorem pairSlopes_nil {γ : Type} (atanDeg : ℚ → ℚ) (dist : γ → γ → ℚ) :
    pairSlopes atanDeg dist [] = [] := rfl

theorem pairSlopes_single {γ : Type} (atanDeg : ℚ → ℚ) (dist : γ → γ → ℚ)
    (a : ContourRow γ) : pairSlopes atanDeg dist [a] = [] := rfl

theorem pairSlopes_cons {γ : Type} (atanDeg : ℚ → ℚ) (dist : γ → γ → ℚ)
    (a b : ContourRow γ) (rest : List (ContourRow γ)) :
    pairSlopes atanDeg dist (a :: b :: rest)
      = (if (1/2 : ℚ) < dist a.geom b.geom ∧ dist a.geom b.geom ≤ 1000
         then [atanDeg (|b.elevation - a.elevation| / dist a.geom b.geom)]
         else []) ++ pairSlopes atanDeg dist (b :: rest) := by
  by_cases hc : (1/2 : ℚ) < dist a.geom b.geom ∧ dist a.geom b.geom ≤ 1000
  · rw [if_pos hc]
    simp only [pairSlopes, List.tail_cons, List.zip_cons_cons, List.filterMap_cons]
    rw [if_pos hc]
    simp
  · rw [if_neg hc]
    simp only [pairSlopes, List.tail_cons, List.zip_cons_cons, List.filterMap_cons]
    rw [if_neg hc]
    simp

theorem listMean_pair (x y : ℚ) : listMean [x, y] = (x + y) / 2 := by
  simp [listMean]

theorem listMax_pair (x y : ℚ) : listMax [x, y] = max x y := by
  simp [listMax]

theorem listMean_one (x : ℚ) : listMean [x] = x := by
  simp [listMean]

theorem listMax_one (x : ℚ) : listMax [x] = x := rfl

/- ### Claim theorems -/

/-- C1: each consecutive elevation-sorted pair of clipped intersections that
passes the plausibility filter contributes the slope angle
`atanDeg (|elevation difference| / centroid distance)` (where `atanDeg`
models `np.degrees (np.arctan ·)`), and when any pair survives, the
returned `SlopeData` is exactly (arithmetic mean of surviving angles,
maximum of surviving angles); in particular, for intersections at
elevations [10, 20, 30] with centroid distances [100 m, 50 m], the per-pair
slopes are `atanDeg (10/100)` and `atanDeg (10/50)` and the result is
exactly their mean and maximum. -/
theorem c1_slope_mean_max :
    (∀ (γ : Type) (atanDeg : ℚ → ℚ) (dist : γ → γ → ℚ) (frame : ContourFrame γ),
      frame.hasElevationColumn = true →
      ¬ frame.rows.length < 2 →
      pairSlopes atanDeg dist (sortByElevation frame.rows) ≠ [] →
      calculate_slope atanDeg dist (Except.ok frame)
        = ⟨listMean (pairSlopes atanDeg dist (sortByElevation frame.rows)),
           listMax (pairSlopes atanDeg dist (sortByElevation frame.rows))⟩)
    ∧ ∀ atanDeg : ℚ → ℚ,
      calculate_slope atanDeg c1Dist (Except.ok c1Frame)
        = ⟨(atanDeg (10/100) + atanDeg (10/50)) / 2,
           max (atanDeg (10/100)) (atanDeg (10/50))⟩ := by
  have hmain : ∀ (γ : Type) (atanDeg : ℚ → ℚ) (dist : γ → γ → ℚ) (frame : ContourFrame γ),
      frame.hasElevationColumn = true →
      ¬ frame.rows.length < 2 →
      pairSlopes atanDeg dist (sortByElevation frame.rows) ≠ [] →
      calculate_slope atanDeg dist (Except.ok frame)
        = ⟨listMean (pairSlopes atanDeg dist (sortByElevation frame.rows)),
           listMax (pairSlopes atanDeg dist (sortByElevation frame.rows))⟩ := by
    intro γ atanDeg dist frame hcol hlen hne
    refine calculate_slope_main atanDeg dist frame hcol ?_ hne
    rw [length_sortByElevation]; exact hlen
  refine ⟨hmain, ?_⟩
  intro atanDeg
  have hsort : sortByElevation c1Frame.rows
      = [⟨10, 0⟩, ⟨20, 1⟩, ⟨30, 2⟩] := by decide
  have hps : pairSlopes atanDeg c1Dist (sortByElevation c1Frame.rows)
      = [atanDeg (10/100), atanDeg (10/50)] := by
    rw [hsort, pairSlopes_cons, pairSlopes_cons, pairSlopes_single,
      if_pos (by norm_num [c1Dist]), if_pos (by norm_num [c1Dist])]
    norm_num [c1Dist]
  rw [hmain ℕ atanDeg c1Dist c1Frame (by decide) (by decide)
      (by rw [hps]; exact List.cons_ne_nil _ _), hps, listMean_pair, listMax_pair]

/-- C1 witness: the theorem applied at `atanDeg := id` and the concrete
example frame, its hypotheses discharged by evaluation. -/
theorem c1_slope_mean_max_witness :
    calculate_slope id c1Dist (Except.ok c1Frame)
      = ⟨listMean (pairSlopes id c1Dist (sortByElevation c1Frame.rows)),
         listMax (pairSlopes id c1Dist (sortByElevation c1Frame.rows))⟩ :=
  c1_slope_mean_max.1 ℕ id c1Dist c1Frame (by decide) (by decide) (by decide)

/-- C2: a consecutive pair of sorted clipped intersections contributes a
slope angle exactly when its centroid distance `d` satisfies
`0.5 < d ≤ 1000`; in a two-feature run the result is the single
contributed angle when the filter passes and the `(0, 0)` sentinel when it
does not; and a pair at exactly 0.4 m is excluded, yielding the sentinel. -/
theorem c2_distance_filter :
    (∀ (γ : Type) (atanDeg : ℚ → ℚ) (dist : γ → γ → ℚ)
        (sorted : List (ContourRow γ)) (x : ℚ),
      x ∈ pairSlopes atanDeg dist sorted ↔
        ∃ p ∈ sorted.zip sorted.tail,
          ((1/2 : ℚ) < dist p.1.geom p.2.geom ∧ dist p.1.geom p.2.geom ≤ 1000) ∧
            x = atanDeg (|p.2.elevation - p.1.elevation| / dist p.1.geom p.2.geom))
    ∧ (∀ (γ : Type) (atanDeg : ℚ → ℚ) (dist : γ → γ → ℚ) (a b : ContourRow γ),
      a.elevation ≤ b.elevation →
      calculate_slope atanDeg dist (Except.ok ⟨true, [a, b]⟩)
        = if (1/2 : ℚ) < dist a.geom b.geom ∧ dist a.geom b.geom ≤ 1000
          then ⟨atanDeg (|b.elevation - a.elevation| / dist a.geom b.geom),
                atanDeg (|b.elevation - a.elevation| / dist a.geom b.geom)⟩
          else ⟨0, 0⟩)
    ∧ ∀ (γ : Type) (atanDeg : ℚ → ℚ) (dist : γ → γ → ℚ) (a b : ContourRow γ),
      a.elevation ≤ b.elevation →
      dist a.geom b.geom = 2/5 →
      calculate_slope atanDeg dist (Except.ok ⟨true, [a, b]⟩) = ⟨0, 0⟩ := by
  have hpair : ∀ (γ : Type) (atanDeg : ℚ → ℚ) (dist : γ → γ → ℚ) (a b : ContourRow γ),
      a.elevation ≤ b.elevation →
      calculate_slope atanDeg dist (Except.ok ⟨true, [a, b]⟩)
        = if (1/2 : ℚ) < dist a.geom b.geom ∧ dist a.geom b.geom ≤ 1000
          then ⟨atanDeg (|b.elevation - a.elevation| / dist a.geom b.geom),
                atanDeg (|b.elevation - a.elevation| / dist a.geom b.geom)⟩
          else ⟨0, 0⟩ := by
    intro γ atanDeg dist a b hab
    have hsort : sortByElevation [a, b] = [a, b] := by
      simp [sortByElevation, insertByElev, hab]
    have hs2 : sortByElevation (⟨true, [a, b]⟩ : ContourFrame γ).rows = [a, b] := hsort
    by_cases hc : (1/2 : ℚ) < dist a.geom b.geom ∧ dist a.geom b.geom ≤ 1000
    · rw [if_pos hc]
      have hps : pairSlopes atanDeg dist
          (sortByElevation (⟨true, [a, b]⟩ : ContourFrame γ).rows)
          = [atanDeg (|b.elevation - a.elevation| / dist a.geom b.geom)] := by
        rw [hs2, pairSlopes_cons, pairSlopes_single, if_pos hc]
        simp
      rw [calculate_slope_main atanDeg dist _ rfl
          (by rw [length_sortByElevation]; simp)
          (by rw [hps]; exact List.cons_ne_nil _ _), hps, listMean_one, listMax_one]
    · rw [if_neg hc]
      refine calculate_slope_sentinel_filtered atanDeg dist _ ?_
      rw [hs2, pairSlopes_cons, pairSlopes_single, if_neg hc]
      simp
  refine ⟨fun γ atanDeg dist sorted x => mem_pairSlopes atanDeg dist sorted x, hpair, ?_⟩
  intro γ atanDeg dist a b hab hd
  rw [hpair γ atanDeg dist a b hab, hd]
  norm_num

/-- C2 witness: the two-feature characterisation applied at distance 10 m
(filter passes) and at exactly 0.4 m (pair excluded). -/
theorem c2_distance_filter_witness :
    (calculate_slope id c4Dist (Except.ok ⟨true, [⟨5, 0⟩, ⟨9, 1⟩]⟩)
      = if (1/2 : ℚ) < c4Dist 0 1 ∧ c4Dist 0 1 ≤ 1000
        then ⟨id (|(9 : ℚ) - 5| / c4Dist 0 1), id (|(9 : ℚ) - 5| / c4Dist 0 1)⟩
        else ⟨0, 0⟩)
    ∧ calculate_slope id (fun _ _ => 2/5)
        (Except.ok (⟨true, [⟨5, 0⟩, ⟨9, 1⟩]⟩ : ContourFrame ℕ)) = ⟨0, 0⟩ :=
  ⟨c2_distance_filter.2.1 ℕ id c4Dist ⟨5, 0⟩ ⟨9, 1⟩ (by norm_num),
   c2_distance_filter.2.2 ℕ id (fun _ _ => 2/5) ⟨5, 0⟩ ⟨9, 1⟩ (by norm_num) rfl⟩

/-- C3: the `(0, 0)` sentinel is returned whenever fewer than two clipped
intersections remain, and whenever no consecutive pair survives the
centroid-distance filter. -/
theorem c3_sentinel :
    (∀ (γ : Type) (atanDeg : ℚ → ℚ) (dist : γ → γ → ℚ) (frame : ContourFrame γ),
      frame.rows.length < 2 →
      calculate_slope atanDeg dist (Except.ok frame) = ⟨0, 0⟩)
    ∧ ∀ (γ : Type) (atanDeg : ℚ → ℚ) (dist : γ → γ → ℚ) (frame : ContourFrame γ),
      pairSlopes atanDeg dist (sortByElevation frame.rows) = [] →
      calculate_slope atanDeg dist (Except.ok frame) = ⟨0, 0⟩ :=
  ⟨fun _ atanDeg dist frame h => calculate_slope_sentinel_short atanDeg dist frame h,
   fun _ atanDeg dist frame h => calculate_slope_sentinel_filtered atanDeg dist frame h⟩

/-- C3 witness: a one-feature frame, and a two-feature frame whose only pair
fails the filter (distance 2000 m). -/
theorem c3_sentinel_witness :
    calculate_slope id c4Dist (Except.ok (⟨true, [⟨5, 0⟩]⟩ : ContourFrame ℕ)) = ⟨0, 0⟩
    ∧ calculate_slope id (fun _ _ => 2000)
        (Except.ok (⟨true, [⟨5, 0⟩, ⟨9, 1⟩]⟩ : ContourFrame ℕ)) = ⟨0, 0⟩ :=
  ⟨c3_sentinel.1 ℕ id c4Dist ⟨true, [⟨5, 0⟩]⟩ (by decide),
   c3_sentinel.2 ℕ id (fun _ _ => 2000) ⟨true, [⟨5, 0⟩, ⟨9, 1⟩]⟩ (by decide)⟩

/-- C4 (code evidence): with the `Elevation` column missing and two clipped
intersections present, the `try:` body of `calculate_slope` aborts at the
`sort_values(by="Elevation")` call with a `KeyError` — it never substitutes
a placeholder elevation and never computes a per-pair slope — and the
blanket handler then returns the `(0, 0)` sentinel.  The explicit
missing-column branch of lines 122-124 (`elevations = np.array([0.0])`) is
unreachable, and its single-element placeholder could not drive the pair
loop anyway. -/
theorem c4_missing_elevation_aborts :
    calcSlopeBody (fun q => q) c4Dist c4Frame = Except.error "KeyError: Elevation"
    ∧ calculate_slope (fun q => q) c4Dist (Except.ok c4Frame) = ⟨0, 0⟩ :=
  ⟨rfl, rfl⟩

/-- C5 counterexample: a contour-layer load failure is mapped by
`calculate_slope`'s blanket handler to exactly the same `SlopeData(0, 0)`
value as the documented insufficient-data case — the failure is not
distinguished, refuting the claim that slope estimation does not return the
same sentinel on a load failure. -/
theorem c5_load_failure_same_sentinel :
    calculate_slope (fun q => q) c4Dist
      (Except.error "FileNotFoundError: contour layer") = ⟨0, 0⟩
    ∧ calculate_slope (fun q => q) c4Dist
        (Except.ok (⟨true, []⟩ : ContourFrame ℕ)) = ⟨0, 0⟩
    ∧ calculate_slope (fun q => q) c4Dist
        (Except.error "FileNotFoundError: contour layer")
      = calculate_slope (fun q => q) c4Dist
          (Except.ok (⟨true, []⟩ : ContourFrame ℕ)) :=
  ⟨rfl, rfl, rfl⟩

/-- C5 (amended): a raised load error is surfaced as `None` by
`extract_property` and `check_environmental_hazards` (no normal-looking
result), while `calculate_slope` alone converts a contour-load failure into
the same `(0, 0)` sentinel it uses for insufficient data, without
distinguishing the two. -/
theorem c5_load_failure_amended :
    ∀ (γ : Type) (e : String) (atanDeg : ℚ → ℚ) (dist : γ → γ → ℚ)
      (contains : γ → ℚ × ℚ → Bool) (intersects : γ → Bool) (c : Coordinates)
      (l1 l2 l3 l4 : Except String (List γ)),
    calculate_slope atanDeg dist (Except.error e) = ⟨0, 0⟩
    ∧ extract_property contains (Except.error e) c = none
    ∧ check_environmental_hazards intersects (Except.error e) l1 l2 l3 l4 = none
    ∧ check_environmental_hazards intersects l1 l2 l3 l4 (Except.error e) = none := by
  intro γ e atanDeg dist contains intersects c l1 l2 l3 l4
  refine ⟨rfl, rfl, rfl, ?_⟩
  cases l1 <;> cases l2 <;> cases l3 <;> cases l4 <;> rfl

/-- C6: the hazard check returns five independent booleans, each true
exactly when some feature of that layer intersects the parcel geometry; a
parcel intersecting only the seismic layer yields
(false, false, true, false, false); and a load failure of any one of the
five layers makes the whole operation return `none`. -/
theorem c6_hazard_booleans :
    (∀ (γ : Type) (intersects : γ → Bool) (e p s t w : List γ),
      check_environmental_hazards intersects (Except.ok e) (Except.ok p)
          (Except.ok s) (Except.ok t) (Except.ok w)
        = some ⟨e.any intersects, p.any intersects, s.any intersects,
                t.any intersects, w.any intersects⟩
      ∧ (e.any intersects = true ↔ ∃ g ∈ e, intersects g = true)
      ∧ (p.any intersects = true ↔ ∃ g ∈ p, intersects g = true)
      ∧ (s.any intersects = true ↔ ∃ g ∈ s, intersects g = true)
      ∧ (t.any intersects = true ↔ ∃ g ∈ t, intersects g = true)
      ∧ (w.any intersects = true ↔ ∃ g ∈ w, intersects g = true))
    ∧ (∀ (γ : Type) (intersects : γ → Bool) (msg : String)
        (l1 l2 l3 l4 : Except String (List γ)),
      check_environmental_hazards intersects (Except.error msg) l1 l2 l3 l4 = none
      ∧ check_environmental_hazards intersects l1 (Except.error msg) l2 l3 l4 = none
      ∧ check_environmental_hazards intersects l1 l2 (Except.error msg) l3 l4 = none
      ∧ check_environmental_hazards intersects l1 l2 l3 (Except.error msg) l4 = none
      ∧ check_environmental_hazards intersects l1 l2 l3 l4 (Except.error msg) = none)
    ∧ check_environmental_hazards c6Intersects (Except.ok [1]) (Except.ok [2])
        (Except.ok [7]) (Except.ok ([] : List ℕ)) (Except.ok [3])
      = some ⟨false, false, true, false, false⟩ := by
  refine ⟨?_, ?_, by decide⟩
  · intro γ intersects e p s t w
    exact ⟨rfl, List.any_eq_true, List.any_eq_true, List.any_eq_true,
      List.any_eq_true, List.any_eq_true⟩
  · intro γ intersects msg l1 l2 l3 l4
    refine ⟨rfl, ?_, ?_, ?_, ?_⟩ <;>
      cases l1 <;> cases l2 <;> cases l3 <;> cases l4 <;> rfl

/-- C7: the parcel locator tests the point (x, y) = (longitude, latitude)
against every feature; it returns `none` exactly when no feature contains
the point; and any parcel it returns is the first containing feature, its
polygon contains the queried point, and its id falls back to "unknown" when
the feature lacks a `PARCEL_ID` attribute. -/
theorem c7_locator :
    ∀ (γ : Type) (contains : γ → ℚ × ℚ → Bool)
      (rows : List (Option String × γ)) (c : Coordinates),
    (extract_property contains (Except.ok rows) c = none ↔
      ∀ r ∈ rows, contains r.2 (c.longitude, c.latitude) = false)
    ∧ ∀ p : Property γ, extract_property contains (Except.ok rows) c = some p →
        contains p.geometry (c.longitude, c.latitude) = true
        ∧ ∃ (pre : List (Option String × γ)) (r : Option String × γ)
            (post : List (Option String × γ)), rows = pre ++ r :: post
            ∧ (∀ x ∈ pre, contains x.2 (c.longitude, c.latitude) = false)
            ∧ contains r.2 (c.longitude, c.latitude) = true
            ∧ p = ⟨r.1.getD "unknown", r.2⟩ := by
  intro γ contains rows c
  constructor
  · cases hf : rows.find? (fun r => contains r.2 (c.longitude, c.latitude)) with
    | none =>
      have hall := List.find?_eq_none.mp hf
      simp only [extract_property, hf]
      constructor
      · intro _ r hr
        have := hall r hr
        simpa using this
      · intro _; trivial
    | some r =>
      simp only [extract_property, hf]
      constructor
      · intro h; cases h
      · intro hall
        obtain ⟨pre, post, hl, -, ha⟩ := find?_first _ rows r hf
        have hr : r ∈ rows := by
          rw [hl]; exact List.mem_append_right _ (List.mem_cons_self _ _)
        rw [hall r hr] at ha
        cases ha
  · intro p hp
    cases hf : rows.find? (fun r => contains r.2 (c.longitude, c.latitude)) with
    | none => simp only [extract_property, hf] at hp; cases hp
    | some r =>
      simp only [extract_property, hf, Option.some.injEq] at hp
      obtain ⟨pre, post, hl, hpre, ha⟩ := find?_first _ rows r hf
      subst hp
      exact ⟨ha, pre, r, post, hl, hpre, ha, rfl⟩

/-- C7 witness: at point (x, y) = (1, 2) built from longitude 1, latitude 2,
the locator returns the first containing feature of `c7Rows`, whose row has
no `PARCEL_ID`, so the id falls back to "unknown". -/
theorem c7_locator_witness :
    c7Contains (Property.mk "unknown" (7 : ℕ)).geometry
      ((⟨2, 1⟩ : Coordinates).longitude, (⟨2, 1⟩ : Coordinates).latitude) = true
    ∧ ∃ pre r post, c7Rows = pre ++ r :: post
        ∧ (∀ x ∈ pre, c7Contains x.2
            ((⟨2, 1⟩ : Coordinates).longitude, (⟨2, 1⟩ : Coordinates).latitude) = false)
        ∧ c7Contains r.2
            ((⟨2, 1⟩ : Coordinates).longitude, (⟨2, 1⟩ : Coordinates).latitude) = true
        ∧ Property.mk "unknown" (7 : ℕ) = ⟨r.1.getD "unknown", r.2⟩ :=
  (c7_locator ℕ c7Contains c7Rows ⟨2, 1⟩).2 ⟨"unknown", 7⟩ (by decide)

/-- C10: `calculate_slope` yields a `SlopeData` on every path (its return
type is not optional: every Python return path, the exception handler
included, yields a value), and whenever the `atanDeg` function is
nonnegative on nonnegative inputs — as `np.degrees ∘ np.arctan` is — the
result satisfies `0 ≤ average_slope ≤ max_slope`; consequently the caller's
`if not slope_data:` failure branch in `app.py` never fires. -/
theorem c10_total_and_ordered :
    ∀ (γ : Type) (atanDeg : ℚ → ℚ) (dist : γ → γ → ℚ)
      (load : Except String (ContourFrame γ)),
    (∀ q : ℚ, 0 ≤ q → 0 ≤ atanDeg q) →
    0 ≤ (calculate_slope atanDeg dist load).average_slope
    ∧ (calculate_slope atanDeg dist load).average_slope
        ≤ (calculate_slope atanDeg dist load).max_slope
    ∧ slopeStepError (calculate_slope atanDeg dist load) = none := by
  intro γ atanDeg dist load h
  refine ?_
  have hstep : ∀ r : SlopeData, slopeStepError r = none := fun r => rfl
  cases load with
  | error e =>
    simp [calculate_slope, Except.bind, hstep]
  | ok frame =>
    cases hcol : frame.hasElevationColumn with
    | false =>
      simp [calculate_slope, Except.bind, calcSlopeBody, hcol, hstep]
    | true =>
      by_cases hlen : (sortByElevation frame.rows).length < 2
      · rw [calculate_slope_sentinel_short atanDeg dist frame
          (by rw [← length_sortByElevation frame.rows]; exact hlen)]
        exact ⟨le_refl 0, le_refl 0, hstep _⟩
      · by_cases hne : pairSlopes atanDeg dist (sortByElevation frame.rows) = []
        · rw [calculate_slope_sentinel_filtered atanDeg dist frame hne]
          exact ⟨le_refl 0, le_refl 0, hstep _⟩
        · rw [calculate_slope_main atanDeg dist frame hcol hlen hne]
          have hnn : ∀ x ∈ pairSlopes atanDeg dist (sortByElevation frame.rows), 0 ≤ x := by
            intro x hx
            obtain ⟨p, _, ⟨hd1, _⟩, hxv⟩ :=
              (mem_pairSlopes atanDeg dist (sortByElevation frame.rows) x).mp hx
            have hdpos : (0 : ℚ) < dist p.1.geom p.2.geom :=
              lt_trans (by norm_num) hd1
            have harg : 0 ≤ |p.2.elevation - p.1.elevation| / dist p.1.geom p.2.geom :=
              div_nonneg (abs_nonneg _) (le_of_lt hdpos)
            rw [hxv]
            exact h _ harg
          exact ⟨listMean_nonneg _ hnn, listMean_le_listMax _ hne, hstep _⟩

/-- C10 witness: the theorem applied at `atanDeg := id` (nonnegative on
nonnegative inputs) and the concrete example data. -/
theorem c10_total_and_ordered_witness :
    0 ≤ (calculate_slope id c1Dist (Except.ok c1Frame)).average_slope
    ∧ (calculate_slope id c1Dist (Except.ok c1Frame)).average_slope
        ≤ (calculate_slope id c1Dist (Except.ok c1Frame)).max_slope
    ∧ slopeStepError (calculate_slope id c1Dist (Except.ok c1Frame)) = none :=
  c10_total_and_ordered ℕ id c1Dist (Except.ok c1Frame) (fun _ hq => hq)

/-!
### Narrative-response parsing (`gemini_analysis.py`)

`clean_json_string` (lines 176-197) and `validate_and_parse_json`
(lines 199-248) are embedded over `List Char`.  The Python regexes are
simple literal/character-class patterns and are implemented directly with
`re.sub` semantics (left-to-right, non-overlapping, resume after each
match).  `json.loads` is modelled by a recursive-descent parser for the
RFC 8259 grammar with CPython's default strictness: unescaped control
characters in strings are rejected, trailing commas are rejected, a
repeated object key keeps its last value (dict semantics, applied at
lookup).  Numbers are kept as their lexemes (no floating point is
introduced); the non-finite extensions (NaN, Infinity) and surrogate-pair
joining are not modelled — no claim depends on them. -/

/-- Python `\s` / `str.strip` whitespace (ASCII range). -/
def isPyWS (c : Char) : Bool :=
  c == ' ' || c == '\t' || c == '\n' || c == '\r' || c == '\x0b' || c == '\x0c'

/-- JSON (RFC 8259, and CPython `json`) insignificant whitespace. -/
def isJsonWS (c : Char) : Bool :=
  c == ' ' || c == '\t' || c == '\n' || c == '\r'

/-- The literal "```json". -/
def fencePat : List Char := "```json".data

/-- The literal "```". -/
def triplePat : List Char := "```".data

/-- Left-to-right, non-overlapping removal of every occurrence of `pat`
(`str.replace(pat, "")`); with `dropNl` set, one newline directly after the
occurrence is removed too (the regex `pat\n?`). -/
def subLit (pat : List Char) (dropNl : Bool) : Nat → List Char → List Char
  | 0, l => l
  | _ + 1, [] => []
  | fuel + 1, c :: cs =>
    if pat ≠ [] ∧ pat.isPrefixOf (c :: cs) then
      subLit pat dropNl fuel
        (match dropNl, (c :: cs).drop pat.length with
         | true, '\n' :: r => r
         | _, r => r)
    else c :: subLit pat dropNl fuel cs

/-- `str.strip()` over the ASCII whitespace class. -/
def trimPy (l : List Char) : List Char :=
  ((l.dropWhile isPyWS).reverse.dropWhile isPyWS).reverse

/-- `.replace('\n', ' ').replace('\r', ' ')`. -/
def nlToSpace (l : List Char) : List Char :=
  l.map (fun c => if c == '\n' || c == '\r' then ' ' else c)

/-- `re.sub(r'\s+', ' ', ...)`: every whitespace run becomes one space. -/
def collapseWS : Nat → List Char → List Char
  | 0, l => l
  | _ + 1, [] => []
  | fuel + 1, c :: cs =>
    if isPyWS c then ' ' :: collapseWS fuel (cs.dropWhile isPyWS)
    else c :: collapseWS fuel cs

/-- `re.sub(r',\s*X', 'X', ...)` for a closing bracket `X`: a comma followed
by whitespace and `X` becomes `X` (the greedy `\s*` must be maximal, since a
shorter match would put a whitespace character where `X` is required). -/
def dropCommaBefore (close : Char) : Nat → List Char → List Char
  | 0, l => l
  | _ + 1, [] => []
  | fuel + 1, c :: cs =>
    if c = ',' then
      match cs.dropWhile isPyWS with
      | d :: rest2 =>
        if d = close then close :: dropCommaBefore close fuel rest2
        else c :: dropCommaBefore close fuel cs
      | [] => c :: dropCommaBefore close fuel cs
    else c :: dropCommaBefore close fuel cs

/-- `gemini_analysis.py` `clean_json_string` (lines 176-197), step for step:
remove ```` ```json```` with an optional following newline, remove
```` ``` ````, strip, replace CR/LF with spaces, collapse whitespace runs,
then drop trailing commas before a closing brace or bracket. -/
def clean_json_string (s : String) : String :=
  let a := subLit fencePat true (s.data.length + 1) s.data
  let b := subLit triplePat false (a.length + 1) a
  let c := trimPy b
  let d := nlToSpace c
  let e := collapseWS (d.length + 1) d
  let f := dropCommaBefore '\x7d' (e.length + 1) e
  let g := dropCommaBefore ']' (f.length + 1) f
  String.mk g

/-- A parsed JSON value.  Numeric lexemes are kept verbatim. -/
inductive Json where
  | null : Json
  | bool (b : Bool) : Json
  | num (lexeme : String) : Json
  | str (s : String) : Json
  | arr (items : List Json) : Json
  | obj (members : List (String × Json)) : Json
deriving Inhabited

/-- Hexadecimal digit value. -/
def hexDigit (c : Char) : Option Nat :=
  if c.isDigit then some (c.toNat - 48)
  else if 'a' ≤ c ∧ c ≤ 'f' then some (c.toNat - 87)
  else if 'A' ≤ c ∧ c ≤ 'F' then some (c.toNat - 55)
  else none

/-- A two-character JSON escape. -/
def escChar (e : Char) : Option Char :=
  if e = '"' then some '"'
  else if e = '\\' then some '\\'
  else if e = '/' then some '/'
  else if e = 'b' then some (Char.ofNat 8)
  else if e = 'f' then some (Char.ofNat 12)
  else if e = 'n' then some '\n'
  else if e = 'r' then some '\r'
  else if e = 't' then some '\t'
  else none

/-- String body after the opening quote.  CPython strict mode: a raw control
character (code < 32) is an error. -/
def parseJsonString : List Char → Option (String × List Char)
  | [] => none
  | c :: cs =>
    if c = '"' then some ("", cs)
    else if c = '\\' then
      match cs with
      | [] => none
      | e :: cs2 =>
        if e = 'u' then
          match cs2 with
          | h1 :: h2 :: h3 :: h4 :: cs3 =>
            match hexDigit h1, hexDigit h2, hexDigit h3, hexDigit h4 with
            | some v1, some v2, some v3, some v4 =>
              (parseJsonString cs3).map
                (fun p => (String.mk (Char.ofNat (((v1 * 16 + v2) * 16 + v3) * 16 + v4)
                  :: p.1.data), p.2))
            | _, _, _, _ => none
          | _ => none
        else
          match escChar e with
          | some ch => (parseJsonString cs2).map (fun p => (String.mk (ch :: p.1.data), p.2))
          | none => none
    else if c.toNat < 32 then none
    else (parseJsonString cs).map (fun p => (String.mk (c :: p.1.data), p.2))

/-- The magnitude of a JSON number after the optional sign, per CPython's
`NUMBER_RE`: `(0|[1-9]\d*)(\.\d+)?([eE][-+]?\d+)?`.  Returns the lexeme. -/
def parseJsonNumMag (cs : List Char) (neg : Bool) : Option (Json × List Char) :=
  match cs with
  | [] => none
  | c :: r =>
    if c = '0' ∨ c.isDigit then
      let intDigits := if c = '0' then ([c], r) else (c :: r.takeWhile Char.isDigit,
        r.dropWhile Char.isDigit)
      let (ip, r1) := intDigits
      let (fp, r2) : List Char × List Char :=
        match r1 with
        | '.' :: d :: r1a =>
          if d.isDigit then ('.' :: d :: r1a.takeWhile Char.isDigit,
            r1a.dropWhile Char.isDigit)
          else ([], r1)
        | _ => ([], r1)
      let (ep, r3) : List Char × List Char :=
        match r2 with
        | 'e' :: r2a =>
          (match r2a with
           | '+' :: d :: r2b =>
             if d.isDigit then ('e' :: '+' :: d :: r2b.takeWhile Char.isDigit,
               r2b.dropWhile Char.isDigit) else ([], r2)
           | '-' :: d :: r2b =>
             if d.isDigit then ('e' :: '-' :: d :: r2b.takeWhile Char.isDigit,
               r2b.dropWhile Char.isDigit) else ([], r2)
           | d :: r2b =>
             if d.isDigit then ('e' :: d :: r2b.takeWhile Char.isDigit,
               r2b.dropWhile Char.isDigit) else ([], r2)
           | [] => ([], r2))
        | 'E' :: r2a =>
          (match r2a with
           | '+' :: d :: r2b =>
             if d.isDigit then ('E' :: '+' :: d :: r2b.takeWhile Char.isDigit,
               r2b.dropWhile Char.isDigit) else ([], r2)
           | '-' :: d :: r2b =>
             if d.isDigit then ('E' :: '-' :: d :: r2b.takeWhile Char.isDigit,
               r2b.dropWhile Char.isDigit) else ([], r2)
           | d :: r2b =>
             if d.isDigit then ('E' :: d :: r2b.takeWhile Char.isDigit,
               r2b.dropWhile Char.isDigit) else ([], r2)
           | [] => ([], r2))
        | _ => ([], r2)
      some (Json.num (String.mk ((if neg then ['-'] else []) ++ ip ++ fp ++ ep)), r3)
    else none

/-- A JSON number with its optional leading minus sign. -/
def parseJsonNumber (cs : List Char) : Option (Json × List Char) :=
  match cs with
  | [] => none
  | c :: r => if c = '-' then parseJsonNumMag r true else parseJsonNumMag (c :: r) false

mutual

/-- One JSON value, leading whitespace allowed (models `json.loads`). -/
def parseJsonValue : Nat → List Char → Option (Json × List Char)
  | 0, _ => none
  | fuel + 1, cs =>
    match cs.dropWhile isJsonWS with
    | [] => none
    | c :: rest =>
      if c = '\x7b' then parseJsonObj fuel rest
      else if c = '[' then parseJsonArr fuel rest
      else if c = '"' then
        match parseJsonString rest with
        | some (s, r2) => some (Json.str s, r2)
        | none => none
      else if c = 't' then
        match rest with
        | 'r' :: 'u' :: 'e' :: r2 => some (Json.bool true, r2)
        | _ => none
      else if c = 'f' then
        match rest with
        | 'a' :: 'l' :: 's' :: 'e' :: r2 => some (Json.bool false, r2)
        | _ => none
      else if c = 'n' then
        match rest with
        | 'u' :: 'l' :: 'l' :: r2 => some (Json.null, r2)
        | _ => none
      else parseJsonNumber (c :: rest)

/-- Object body after the opening brace. -/
def parseJsonObj : Nat → List Char → Option (Json × List Char)
  | 0, _ => none
  | fuel + 1, cs =>
    match cs.dropWhile isJsonWS with
    | [] => none
    | d :: rest =>
      if d = '\x7d' then some (Json.obj [], rest)
      else parseJsonMembers fuel (d :: rest) []

/-- One-or-more comma-separated `"key": value` members (no trailing comma). -/
def parseJsonMembers : Nat → List Char → List (String × Json) →
    Option (Json × List Char)
  | 0, _, _ => none
  | fuel + 1, cs, acc =>
    match cs.dropWhile isJsonWS with
    | [] => none
    | k :: rest =>
      if k = '"' then
        match parseJsonString rest with
        | none => none
        | some (key, r1) =>
          match r1.dropWhile isJsonWS with
          | [] => none
          | colon :: r2 =>
            if colon = ':' then
              match parseJsonValue fuel r2 with
              | none => none
              | some (v, r3) =>
                match r3.dropWhile isJsonWS with
                | [] => none
                | sep :: r4 =>
                  if sep = ',' then parseJsonMembers fuel r4 (acc ++ [(key, v)])
                  else if sep = '\x7d' then some (Json.obj (acc ++ [(key, v)]), r4)
                  else none
            else none
      else none

/-- Array body after the opening bracket. -/
def parseJsonArr : Nat → List Char → Option (Json × List Char)
  | 0, _ => none
  | fuel + 1, cs =>
    match cs.dropWhile isJsonWS with
    | [] => none
    | d :: rest =>
      if d = ']' then some (Json.arr [], rest)
      else parseJsonItems fuel (d :: rest) []

/-- One-or-more comma-separated array items (no trailing comma). -/
def parseJsonItems : Nat → List Char → List Json → Option (Json × List Char)
  | 0, _, _ => none
  | fuel + 1, cs, acc =>
    match parseJsonValue fuel cs with
    | none => none
    | some (v, r1) =>
      match r1.dropWhile isJsonWS with
      | [] => none
      | sep :: r2 =>
        if sep = ',' then parseJsonItems fuel r2 (acc ++ [v])
        else if sep = ']' then some (Json.arr (acc ++ [v]), r2)
        else none

end

/-- `json.loads`: one value, then only whitespace may remain ("Extra data"
otherwise).  The fuel is an upper bound on recursion depth; at most three
units are spent per input character, so it never runs out. -/
def parseJson (s : String) : Option Json :=
  match parseJsonValue (4 * s.data.length + 8) s.data with
  | some (v, rest) => if (rest.dropWhile isJsonWS).isEmpty then some v else none
  | none => none

/-- `not cleaned_json.strip()`: true exactly when every character is
whitespace (the empty string included). -/
def allPyWS (s : String) : Bool := s.data.all isPyWS

/-- The fallback of `validate_and_parse_json` lines 236:
`json_str.replace('```json', '').replace('```', '').strip()`. -/
def fallback_clean (raw : String) : String :=
  let a := subLit fencePat false (raw.data.length + 1) raw.data
  let b := subLit triplePat false (a.length + 1) a
  String.mk (trimPy b)

/-- `gemini_analysis.py` `validate_and_parse_json` (lines 199-248), up to
the structural parse: clean, refuse an empty result, parse; on a parse
error try the minimally-cleaned fallback; `none` when both fail.  (The
construction of the pydantic model from the parsed dict is the per-model
step below.) -/
def validate_and_parse_json (raw : String) : Option Json :=
  let cleaned := clean_json_string raw
  if allPyWS cleaned then none
  else
    match parseJson cleaned with
    | some v => some v
    | none => parseJson (fallback_clean raw)

/-- `models.py` `LocationAnalysis`. -/
structure LocationAnalysis where
  summary : String
  recommendations : List String
deriving DecidableEq, Repr

/-- `models.py` `SlopeAnalysis`. -/
structure SlopeAnalysis where
  summary : String
  recommendations : List String
deriving DecidableEq, Repr

/-- `models.py` `FeasibilityReport`. -/
structure FeasibilityReport where
  location_analysis : LocationAnalysis
  slope_analysis : SlopeAnalysis
  overall_feasibility : String
  detailed_recommendations : List String
deriving DecidableEq, Repr

/-- A JSON string value. -/
def jsonString? : Json → Option String
  | Json.str s => some s
  | _ => none

/-- A JSON array of string values. -/
def jsonStringList? : Json → Option (List String)
  | Json.arr xs => xs.mapM jsonString?
  | _ => none

/-- Key lookup in a parsed object.  `json.loads` builds a Python dict, so a
repeated key keeps its **last** value. -/
def jsonLookup (kvs : List (String × Json)) (k : String) : Option Json :=
  (kvs.reverse.find? (fun p => p.1 == k)).map (fun p => p.2)

/-- `LocationAnalysis(**parsed_data)`: the pydantic construction needs a
dict with a string `summary` and a string-list `recommendations`
(extra keys are ignored; anything else raises, which the caller's handler
turns into `None`). -/
def locationAnalysisOfJson : Json → Option LocationAnalysis
  | Json.obj kvs =>
    (jsonLookup kvs "summary").bind fun sj =>
    (jsonString? sj).bind fun s =>
    (jsonLookup kvs "recommendations").bind fun rj =>
    (jsonStringList? rj).map fun r => ⟨s, r⟩
  | _ => none

/-- `SlopeAnalysis(**parsed_data)`, same shape as `locationAnalysisOfJson`. -/
def slopeAnalysisOfJson : Json → Option SlopeAnalysis
  | Json.obj kvs =>
    (jsonLookup kvs "summary").bind fun sj =>
    (jsonString? sj).bind fun s =>
    (jsonLookup kvs "recommendations").bind fun rj =>
    (jsonStringList? rj).map fun r => ⟨s, r⟩
  | _ => none

/-- `FeasibilityReport(**parsed_data)` with its two nested models. -/
def feasibilityReportOfJson : Json → Option FeasibilityReport
  | Json.obj kvs =>
    (jsonLookup kvs "location_analysis").bind fun lj =>
    (locationAnalysisOfJson lj).bind fun la =>
    (jsonLookup kvs "slope_analysis").bind fun sj =>
    (slopeAnalysisOfJson sj).bind fun sa =>
    (jsonLookup kvs "overall_feasibility").bind fun oj =>
    (jsonString? oj).bind fun o =>
    (jsonLookup kvs "detailed_recommendations").bind fun dj =>
    (jsonStringList? dj).map fun d => ⟨la, sa, o, d⟩
  | _ => none

/-- `validate_and_parse_json(result, LocationAnalysis)` end to end. -/
def validateAndParseLocation (raw : String) : Option LocationAnalysis :=
  (validate_and_parse_json raw).bind locationAnalysisOfJson

/-- `validate_and_parse_json(result, FeasibilityReport)` end to end. -/
def validateAndParseReport (raw : String) : Option FeasibilityReport :=
  (validate_and_parse_json raw).bind feasibilityReportOfJson

/-- Python `s[:100]` (the truncation used in the placeholder summaries). -/
def pyTake100 (s : String) : String := String.mk (s.data.take 100)

/-- `gemini_analysis.py` `analyze_location` (lines 250-333) after the
prompt/logging plumbing.  `hasAgent` is whether the Gemini agent was
initialised; `apiResult` is the outcome of `agent.run_sync`, modelled by
its `.data` payload (the invalid-JSON placeholder truncates that payload
to 100 characters).  Each failure path returns the fixed advisory result
rather than raising. -/
def analyze_location (hasAgent : Bool) (apiResult : Except String String) :
    LocationAnalysis :=
  if hasAgent = false then
    ⟨"Analysis skipped due to missing or failed Gemini initialization.",
     ["Please ensure a valid GOOGLE_API_KEY is set in the .env file and restart the app."]⟩
  else
    match apiResult with
    | Except.error e =>
      ⟨"Analysis failed due to API error: " ++ e,
       ["Consult a geotechnical engineer for manual assessment."]⟩
    | Except.ok data =>
      match validateAndParseLocation data with
      | some la => la
      | none =>
        ⟨"Analysis failed due to invalid JSON response: " ++ pyTake100 data ++ "...",
         ["Consult a geotechnical engineer for manual assessment."]⟩

/-- `gemini_analysis.py` `generate_feasibility_report` (lines 417-530).
The three failure paths (agent missing, API error, unparseable response)
copy the supplied `location` and `slope` analyses through unchanged; the
success path returns whatever report the model response parsed to. -/
def generate_feasibility_report (hasAgent : Bool) (apiResult : Except String String)
    (location : LocationAnalysis) (slope : SlopeAnalysis) : FeasibilityReport :=
  if hasAgent = false then
    ⟨location, slope,
     "Report generation skipped due to missing or failed Gemini initialization.",
     ["Please ensure a valid GOOGLE_API_KEY is set in the .env file and restart the app."]⟩
  else
    match apiResult with
    | Except.error e =>
      ⟨location, slope, "Report generation failed due to API error: " ++ e,
       ["Consult a geotechnical engineer for manual assessment."]⟩
    | Except.ok data =>
      match validateAndParseReport data with
      | some r => r
      | none =>
        ⟨location, slope,
         "Report generation failed due to invalid JSON response: " ++ pyTake100 data ++ "...",
         ["Consult a geotechnical engineer for manual assessment."]⟩

/-- A model response with code fences, embedded newlines and trailing commas
whose underlying JSON is otherwise valid. -/
def c8Raw : String :=
  "```json\n\x7b\n  \"summary\": \"ok\",\n  \"recommendations\": [\"a\", \"b\",],\n\x7d\n```"

/-- Input analyses for the feasibility-report pass-through example. -/
def c9Loc : LocationAnalysis := ⟨"A", ["la"]⟩

/-- Input slope analysis for the pass-through example. -/
def c9Slope : SlopeAnalysis := ⟨"S", ["ls"]⟩

/-- A well-formed model response whose analysis sections differ from the
inputs (the model rewrote them). -/
def c9Resp : String :=
  "\x7b\"location_analysis\": \x7b\"summary\": \"B\", \"recommendations\": []\x7d, " ++
  "\"slope_analysis\": \x7b\"summary\": \"T\", \"recommendations\": []\x7d, " ++
  "\"overall_feasibility\": \"ok\", \"detailed_recommendations\": []\x7d"

/-- What `c9Resp` parses to. -/
def c9Report : FeasibilityReport := ⟨⟨"B", []⟩, ⟨"T", []⟩, "ok", []⟩

theorem dropWhile_head_false {α : Type} (p : α → Bool) :
    ∀ (l : List α) (c : α) (rest : List α), l.dropWhile p = c :: rest → p c = false := by
  intro l
  induction l with
  | nil => intro c rest h; cases h
  | cons a l ih =>
    intro c rest h
    by_cases ha : p a = true
    · rw [List.dropWhile_cons_of_pos ha] at h
      exact ih c rest h
    · have ha' : p a = false := by simpa using ha
      rw [List.dropWhile_cons_of_neg (by simp [ha'])] at h
      cases h
      exact ha'

theorem parseJsonValue_allWS (fuel : Nat) (l : List Char)
    (h : l.all isPyWS = true) : parseJsonValue fuel l = none := by
  cases fuel with
  | zero => rfl
  | succ f =>
    cases hd : l.dropWhile isJsonWS with
    | nil => simp [parseJsonValue, hd]
    | cons c rest =>
      have hcmem : c ∈ l :=
        (List.dropWhile_sublist (p := isJsonWS) (l := l)).subset
          (by rw [hd]; exact List.mem_cons_self _ _)
      have hcPy : isPyWS c = true := List.all_eq_true.mp h c hcmem
      have hcJ : isJsonWS c = false := dropWhile_head_false _ l c rest hd
      have hc : c = '\x0b' ∨ c = '\x0c' := by
        simp only [isPyWS, Bool.or_eq_true, beq_iff_eq] at hcPy
        simp only [isJsonWS, Bool.or_eq_false_iff, beq_eq_false_iff_ne, ne_eq] at hcJ
        rcases hcPy with ((((h1 | h2) | h3) | h4) | h5) | h6
        · exact absurd h1 hcJ.1.1.1
        · exact absurd h2 hcJ.1.1.2
        · exact absurd h3 hcJ.1.2
        · exact absurd h4 hcJ.2
        · exact Or.inl h5
        · exact Or.inr h6
      rcases hc with hc | hc <;> subst hc <;>
        simp [parseJsonValue, hd, parseJsonNumber, parseJsonNumMag]

theorem parseJson_allWS (s : String) (h : allPyWS s = true) : parseJson s = none := by
  unfold parseJson
  rw [parseJsonValue_allWS _ _ h]

/-- C8: whenever the cleaned response text is valid JSON, the
cleaning-and-parse step succeeds and yields exactly the parse of the
cleaned text (so code fences, embedded newlines and trailing commas before
a closing brace or bracket are tolerated); the concrete fenced example with
a trailing comma parses to the expected structure, typed parsing included;
and an irrecoverable response makes the boundary return the fixed advisory
placeholder instead of raising. -/
theorem c8_parse_tolerance :
    (∀ raw : String, (parseJson (clean_json_string raw)).isSome = true →
      validate_and_parse_json raw = parseJson (clean_json_string raw))
    ∧ validate_and_parse_json c8Raw
        = some (Json.obj [("summary", Json.str "ok"),
            ("recommendations", Json.arr [Json.str "a", Json.str "b"])])
    ∧ validateAndParseLocation c8Raw = some ⟨"ok", ["a", "b"]⟩
    ∧ ∀ bad : String, validateAndParseLocation bad = none →
        analyze_location true (Except.ok bad)
          = ⟨"Analysis failed due to invalid JSON response: " ++ pyTake100 bad ++ "...",
             ["Consult a geotechnical engineer for manual assessment."]⟩ := by
  refine ⟨?_, rfl, rfl, ?_⟩
  · intro raw h
    have hws : allPyWS (clean_json_string raw) = false := by
      cases hcase : allPyWS (clean_json_string raw) with
      | false => rfl
      | true =>
        rw [parseJson_allWS _ hcase] at h
        simp at h
    simp only [validate_and_parse_json]
    rw [if_neg (by simp [hws])]
    cases hp : parseJson (clean_json_string raw) with
    | some v => rfl
    | none => rw [hp] at h; simp at h
  · intro bad hbad
    simp only [analyze_location]
    rw [if_neg (by simp)]
    rw [hbad]

/-- C8 witness: the general statement applied at the concrete fenced
example, and the placeholder path applied at an unparseable response. -/
theorem c8_parse_tolerance_witness :
    validate_and_parse_json c8Raw = parseJson (clean_json_string c8Raw)
    ∧ analyze_location true (Except.ok "not json")
      = ⟨"Analysis failed due to invalid JSON response: "
          ++ pyTake100 "not json" ++ "...",
         ["Consult a geotechnical engineer for manual assessment."]⟩ :=
  ⟨c8_parse_tolerance.1 c8Raw rfl,
   c8_parse_tolerance.2.2.2 "not json" rfl⟩

/-- C9 counterexample: with a successfully parsed model response whose
analysis sections differ from the inputs, `generate_feasibility_report`
returns the response's sections, not the supplied ones — the assembly is
not a pure copy-through of the inputs. -/
theorem c9_not_pure_copy :
    (generate_feasibility_report true (Except.ok c9Resp) c9Loc c9Slope).location_analysis
      ≠ c9Loc
    ∧ (generate_feasibility_report true (Except.ok c9Resp) c9Loc c9Slope).slope_analysis
      ≠ c9Slope :=
  ⟨by decide, by decide⟩

/-- C9 (amended): the three fallback paths of the report generator (agent
missing, API error, unparseable response) copy the supplied location and
slope analyses through unchanged; on a successfully parsed response the
assembled record is exactly the parsed response, whose analysis fields come
from the model and may differ from the inputs. -/
theorem c9_passthrough_amended :
    ∀ (location : LocationAnalysis) (slope : SlopeAnalysis) (e data : String)
      (api : Except String String),
    ((generate_feasibility_report false api location slope).location_analysis = location
      ∧ (generate_feasibility_report false api location slope).slope_analysis = slope)
    ∧ ((generate_feasibility_report true (Except.error e) location slope).location_analysis
        = location
      ∧ (generate_feasibility_report true (Except.error e) location slope).slope_analysis
        = slope)
    ∧ (validateAndParseReport data = none →
        (generate_feasibility_report true (Except.ok data) location slope).location_analysis
          = location
        ∧ (generate_feasibility_report true (Except.ok data) location slope).slope_analysis
          = slope)
    ∧ ∀ r : FeasibilityReport, validateAndParseReport data = some r →
        generate_feasibility_report true (Except.ok data) location slope = r := by
  intro location slope e data api
  refine ⟨⟨rfl, rfl⟩, ⟨rfl, rfl⟩, ?_, ?_⟩
  · intro h
    constructor <;>
      · simp only [generate_feasibility_report]
        rw [if_neg (by simp)]
        rw [h]
  · intro r h
    simp only [generate_feasibility_report]
    rw [if_neg (by simp)]
    rw [h]

/-- C9 amended witness: the unparseable-response path at a concrete bad
response (inputs copied through) and the success path at the concrete
parsed response. -/
theorem c9_passthrough_amended_witness :
    ((generate_feasibility_report true (Except.ok "bad") c9Loc c9Slope).location_analysis
        = c9Loc
      ∧ (generate_feasibility_report true (Except.ok "bad") c9Loc c9Slope).slope_analysis
        = c9Slope)
    ∧ generate_feasibility_report true (Except.ok c9Resp) c9Loc c9Slope = c9Report :=
  ⟨(c9_passthrough_amended c9Loc c9Slope "e" "bad" (Except.error "x")).2.2.1 rfl,
   (c9_passthrough_amended c9Loc c9Slope "e" c9Resp (Except.error "x")).2.2.2 c9Report rfl⟩
